import Mathlib

/-!
# Verification of the RAG IT-Support chatbot

A shallow embedding, in Lean 4, of the parts of `function_calling.py` and
`chatbot.py` that the specification talks about, together with theorems
settling the specified properties.

Modelling conventions:
* Python strings are `String`; `s.lower()`, `needle in haystack`,
  `s.replace(" ", "_")` and `s[:n]` are modelled character-wise over the
  character list of the string (Python semantics on these inputs).
* Python floats (similarity scores, thresholds) are modelled as `ℚ`.
* The FAISS vector store and the LLM are external services; they are
  modelled as function-valued oracles.  A raised Python exception is an
  `Except.error` carrying the exception text.
* `json.dumps` serialisation of a result dictionary is abstracted: the
  dictionaries returned by the tool functions are modelled as structured
  values (`ExecResult`), keeping all their fields.
* `datetime.now()` is an input (`now`) to the ticket-creating operation.
-/

namespace FunctionCalling

/-- Python `s.lower()`, modelled character-wise. -/
def pyLower (s : String) : String := String.mk (s.data.map Char.toLower)

/-- Python `needle in haystack` on strings: substring containment. -/
def pyIn (needle haystack : String) : Bool := decide (needle.data <:+: haystack.data)

/-- Python `s.replace(" ", "_")`: the pattern is a single character, so the
replacement is character-wise. -/
def pyReplaceSpaceUnderscore (s : String) : String :=
  String.mk (s.data.map fun c => if c = ' ' then '_' else c)

/-- A ticket dictionary as built by `create_support_ticket`
(`function_calling.py` lines 35-45). -/
structure Ticket where
  ticket_id : String
  title : String
  description : String
  category : String
  priority : String
  status : String
  created_at : String
  estimated_resolution : String
  assigned_to : String
deriving DecidableEq, Repr

/-- The module-level mutable state of `function_calling.py`:
`TICKET_DATABASE = []` and `TICKET_COUNTER = 1000` (lines 12-13). -/
structure TicketState where
  TICKET_DATABASE : List Ticket
  TICKET_COUNTER : Nat
deriving DecidableEq, Repr

/-- The state at process start: empty database, counter 1000. -/
def initTicketState : TicketState := ⟨[], 1000⟩

/-- Model of `get_resolution_time` (`function_calling.py` lines 149-157):
a `dict.get` on the lower-cased priority with default "2-3 business days". -/
def get_resolution_time (priority : String) : String :=
  let p := pyLower priority
  if p = "low" then "3-5 business days"
  else if p = "medium" then "1-2 business days"
  else if p = "high" then "4-8 hours"
  else if p = "critical" then "1-2 hours"
  else "2-3 business days"

/-- Model of `create_support_ticket` (`function_calling.py` lines 15-50).
The formatted id INC<counter> is modelled as `"INC" ++ Nat.repr counter`;
the ticket is appended to the database and the counter incremented. -/
def create_support_ticket (title description category priority now : String)
    (st : TicketState) : Ticket × TicketState :=
  let ticket : Ticket :=
    ⟨"INC" ++ Nat.repr st.TICKET_COUNTER, title, description, category, priority,
      "open", now, get_resolution_time priority, "IT Support Team"⟩
  (ticket, ⟨st.TICKET_DATABASE ++ [ticket], st.TICKET_COUNTER + 1⟩)

/-- Result dictionary of `check_ticket_status` (lines 52-77). -/
inductive TicketStatusResult where
  | found (ticket_id status title priority created_at estimated_resolution : String)
  | notFound (message : String)
deriving DecidableEq, Repr

/-- Model of `check_ticket_status` (lines 52-77): first database entry with the given
id, else a not-found message. -/
def check_ticket_status (ticket_id : String) (st : TicketState) : TicketStatusResult :=
  match st.TICKET_DATABASE.find? (fun t => t.ticket_id == ticket_id) with
  | some t => .found t.ticket_id t.status t.title t.priority t.created_at t.estimated_resolution
  | none => .notFound ("Ticket " ++ ticket_id ++ " not found in the system")

/-- Result dictionary of `check_system_status` (lines 79-112); the `unknown`
branch carries a `message` and no uptime fields. -/
structure SystemStatus where
  system : String
  status : String
  uptime : Option String
  last_incident : Option String
  note : Option String
  message : Option String
deriving DecidableEq, Repr

/-- The simulated `systems` table of `check_system_status` (lines 90-98):
status, uptime, last incident, optional note. -/
def systemsTable : List (String × (String × String × String × Option String)) :=
  [("email", ("operational", "99.9%", "2 days ago", none)),
   ("vpn", ("operational", "99.5%", "5 days ago", none)),
   ("file_server", ("operational", "99.8%", "1 day ago", none)),
   ("internet", ("operational", "99.95%", "10 days ago", none)),
   ("office365", ("operational", "99.9%", "3 days ago", none)),
   ("printer", ("degraded", "95%", "2 hours ago", some "Building B printers experiencing delays"))]

/-- Model of `check_system_status` (lines 79-112). -/
def check_system_status (system_name : String) : SystemStatus :=
  let key := pyReplaceSpaceUnderscore (pyLower system_name)
  match systemsTable.lookup key with
  | some (st, up, li, note) => ⟨key, st, some up, some li, note, none⟩
  | none => ⟨key, "unknown", none, none, none, some "System not monitored or invalid system name"⟩

/-- An employee record of the mock directory (lines 127-136). -/
structure Employee where
  name : String
  email : String
  department : String
  phone : String
  location : String
deriving DecidableEq, Repr

/-- The mock employee directory (lines 127-136). -/
def employees : List Employee :=
  [⟨"John Smith", "john.smith@company.com", "IT Support", "ext. 4357", "Building A, Floor 3"⟩,
   ⟨"Sarah Johnson", "sarah.johnson@company.com", "IT Security", "ext. 4358", "Building A, Floor 3"⟩,
   ⟨"Mike Chen", "mike.chen@company.com", "Network Admin", "ext. 4359", "Building A, Floor 3"⟩,
   ⟨"Emily Davis", "emily.davis@company.com", "IT Manager", "ext. 4350", "Building A, Floor 3"⟩]

/-- One `if name: results = [e for e in results if ...]` step of
`search_employee_directory`; Python truthiness skips `None` and `""`. -/
def applyFilter (field : Employee → String) (v : Option String)
    (l : List Employee) : List Employee :=
  match v with
  | some s => if s = "" then l else l.filter fun e => pyIn (pyLower s) (pyLower (field e))
  | none => l

/-- Model of `search_employee_directory` (lines 114-147): name filter, then
department filter, then email filter. -/
def search_employee_directory (name department email : Option String) : List Employee :=
  applyFilter (fun e => e.email) email
    (applyFilter (fun e => e.department) department
      (applyFilter (fun e => e.name) name employees))

/-- One property of a JSON-schema `parameters.properties` entry: its key and
its optional `enum`. -/
structure ParamDef where
  pname : String
  enum : Option (List String)
deriving DecidableEq, Repr

/-- One entry of `FUNCTION_DEFINITIONS`: name, properties, required keys. -/
structure FunctionDef where
  fname : String
  properties : List ParamDef
  required : List String
deriving DecidableEq, Repr

/-- Transcription of `FUNCTION_DEFINITIONS` (`function_calling.py` lines 181-260), keeping the
schema parts relevant to validation: property keys, enums, required lists. -/
def FUNCTION_DEFINITIONS : List FunctionDef :=
  [⟨"create_support_ticket",
     [⟨"title", none⟩, ⟨"description", none⟩,
      ⟨"category", some ["password", "hardware", "software", "network", "access", "other"]⟩,
      ⟨"priority", some ["low", "medium", "high", "critical"]⟩],
     ["title", "description", "category"]⟩,
   ⟨"check_ticket_status", [⟨"ticket_id", none⟩], ["ticket_id"]⟩,
   ⟨"check_system_status",
     [⟨"system_name", some ["email", "vpn", "file_server", "internet", "office365", "printer"]⟩],
     ["system_name"]⟩,
   ⟨"search_employee_directory",
     [⟨"name", none⟩, ⟨"department", none⟩, ⟨"email", none⟩], []⟩]

/-- Argument dictionaries passed to `execute_function`: all declared
parameters are strings. -/
abbrev Args := List (String × String)

/-- Does one supplied argument respect the (possible) enum of its declared
property?  Undeclared keys have no enum to violate. -/
def enumOk (fd : FunctionDef) (kv : String × String) : Bool :=
  match fd.properties.find? (fun p => p.pname == kv.1) with
  | some p =>
    match p.enum with
    | some vs => vs.contains kv.2
    | none => true
  | none => true

/-- Schema validity of an argument dictionary for a function, as the
specification describes it: the function is declared, every required field
is present, and every enum is respected. -/
def validArguments (fname : String) (args : Args) : Bool :=
  match FUNCTION_DEFINITIONS.find? (fun fd => fd.fname == fname) with
  | some fd => fd.required.all (fun r => (args.lookup r).isSome) && args.all (enumOk fd)
  | none => false

/-- Errors a dispatched call can raise.  The code under test only ever
raises `typeError` (the Python `TypeError` from `function(**arguments)`
keyword binding); `validationError` exists so that the specified behaviour
can be stated. -/
inductive PyErr where
  | typeError (message : String)
  | validationError (field : String)
deriving DecidableEq, Repr

/-- The result value of `execute_function` before `json.dumps`
serialisation. -/
inductive ExecResult where
  | ticket (t : Ticket)
  | ticketStatus (r : TicketStatusResult)
  | systemStatus (r : SystemStatus)
  | employeeList (l : List Employee)
  | errorObject (message : String)
deriving DecidableEq, Repr

/-- The keys of `AVAILABLE_FUNCTIONS` (lines 263-268). -/
def AVAILABLE_FUNCTIONS : List String :=
  ["create_support_ticket", "check_ticket_status", "check_system_status",
   "search_employee_directory"]

/-- Python keyword binding: every supplied keyword must be a parameter of
the signature of the called function. -/
def keysOk (args : Args) (allowed : List String) : Bool :=
  args.all (fun kv => allowed.contains kv.1)

/-- Model of `execute_function` (`function_calling.py` lines 270-286): look the name
up in `AVAILABLE_FUNCTIONS` and call `function(**arguments)`.  No schema
validation happens; Python itself raises `TypeError` on unexpected or
missing keywords, and an unknown name returns an error object (not an
exception). -/
def execute_function (function_name : String) (args : Args) (now : String)
    (st : TicketState) : Except PyErr (ExecResult × TicketState) :=
  if function_name = "create_support_ticket" then
    if keysOk args ["title", "description", "category", "priority"] = false then
      .error (.typeError "create_support_ticket() got an unexpected keyword argument")
    else
      match args.lookup "title", args.lookup "description", args.lookup "category" with
      | some title, some description, some category =>
        let priority := (args.lookup "priority").getD "medium"
        let r := create_support_ticket title description category priority now st
        .ok (.ticket r.1, r.2)
      | _, _, _ =>
        .error (.typeError "create_support_ticket() missing a required positional argument")
  else if function_name = "check_ticket_status" then
    if keysOk args ["ticket_id"] = false then
      .error (.typeError "check_ticket_status() got an unexpected keyword argument")
    else
      match args.lookup "ticket_id" with
      | some tid => .ok (.ticketStatus (check_ticket_status tid st), st)
      | none =>
        .error (.typeError "check_ticket_status() missing a required positional argument")
  else if function_name = "check_system_status" then
    if keysOk args ["system_name"] = false then
      .error (.typeError "check_system_status() got an unexpected keyword argument")
    else
      match args.lookup "system_name" with
      | some sn => .ok (.systemStatus (check_system_status sn), st)
      | none =>
        .error (.typeError "check_system_status() missing a required positional argument")
  else if function_name = "search_employee_directory" then
    if keysOk args ["name", "department", "email"] = false then
      .error (.typeError "search_employee_directory() got an unexpected keyword argument")
    else
      .ok (.employeeList (search_employee_directory (args.lookup "name")
        (args.lookup "department") (args.lookup "email")), st)
  else
    .ok (.errorObject ("Function " ++ function_name ++ " not found"), st)

/-- One request to `create_support_ticket`: its four string arguments plus
the wall-clock time observed during the call. -/
structure CreateReq where
  title : String
  description : String
  category : String
  priority : String
  now : String

/-- Run a sequence of `create_support_ticket` calls, threading the module
state. -/
def run_create : List CreateReq → TicketState → TicketState
  | [], st => st
  | r :: rs, st =>
    run_create rs (create_support_ticket r.title r.description r.category r.priority r.now st).2

end FunctionCalling

namespace Chatbot

/-- A LangChain `Document` as the chatbot sees it: `metadata` keys `id`,
`title`, `category` (looked up with `.get(key, default)`, hence optional)
and `page_content`. -/
structure Document where
  id : Option String
  title : Option String
  category : Option String
  page_content : String
deriving DecidableEq, Repr

/-- The FAISS vector store, as the oracle behind
`similarity_search_with_score(query, k)`: it yields documents paired with
their raw L2 distances, or raises (an `Except.error`). -/
def VectorStore : Type :=
  String → Nat → Except String (List (Document × ℚ))

/-- The distance-to-similarity conversion of `_retrieve_with_threshold`
(`chatbot.py` line 146): `similarity = 1 / (1 + score)`. -/
def similarityOf (score : ℚ) : ℚ := 1 / (1 + score)

/-- The filtering loop of `_retrieve_with_threshold` (lines 139-153) on an
already-fetched candidate list: keep the pairs whose similarity meets the
threshold, stopping as soon as `k` documents are collected. -/
def thresholdFilter (cands : List (Document × ℚ)) (threshold : ℚ) (k : Nat) :
    List (Document × ℚ) :=
  (cands.filter fun ds => decide (threshold ≤ similarityOf ds.2)).take k

/-- Model of `_retrieve_with_threshold` (`chatbot.py` lines 124-163): fetch `k * 2`
scored candidates from the store, convert scores, filter by the threshold,
stop at `k` documents. -/
def retrieve_with_threshold (store : VectorStore) (threshold : ℚ) (query : String)
    (k : Nat) : Except String (List Document) :=
  match store query (k * 2) with
  | .error e => .error e
  | .ok docs_with_scores => .ok ((thresholdFilter docs_with_scores threshold k).map Prod.fst)

/-- Number of documents a retrieval returned (0 if it raised). -/
def resultCount (r : Except String (List Document)) : Nat :=
  match r with
  | .ok docs => docs.length
  | .error _ => 0

/-- Model of `_format_docs` (`chatbot.py` lines 165-183). -/
def format_docs (docs : List Document) : String :=
  if docs = [] then "No relevant information found in the knowledge base."
  else
    String.intercalate "\n---\n" (docs.enum.map fun p =>
      "Article " ++ Nat.repr (p.1 + 1) ++ " (ID: " ++ p.2.id.getD "N/A" ++ "):\n" ++
      "Title: " ++ p.2.title.getD "N/A" ++ "\n" ++
      "Category: " ++ p.2.category.getD "N/A" ++ "\n" ++
      "Content: " ++ p.2.page_content ++ "\n")

/-- A chat-history entry: LangChain `HumanMessage` or `AIMessage`. -/
inductive ChatMsg where
  | human (content : String)
  | ai (content : String)
deriving DecidableEq, Repr

/-- How `_format_chat_history` renders one message (lines 192-195). -/
def renderMsg (m : ChatMsg) : String :=
  match m with
  | .human c => "User: " ++ c
  | .ai c => "Assistant: " ++ c

/-- Model of `_format_chat_history` (`chatbot.py` lines 185-196): the last six
messages (`self.chat_history[-6:]`) rendered one per line. -/
def format_chat_history (history : List ChatMsg) : String :=
  if history = [] then "No previous conversation."
  else String.intercalate "\n" ((history.drop (history.length - 6)).map renderMsg)

/-- The prompt template of `_create_chain` (`chatbot.py` lines 201-224) with
its three holes filled in. -/
def promptOf (context chat_history question : String) : String :=
  "You are an IT Support Assistant for a company. Your role is to help employees with technical issues using the knowledge base provided.\n\nUse the following context from the IT knowledge base to answer the question:\n\nContext:\n"
  ++ context ++
  "\n\nInstructions:\n1. If the context contains relevant information, provide clear, step-by-step solutions\n2. If the context says \"No relevant information found\", acknowledge that you don\x27t have specific information about this topic in the knowledge base and offer to:\n   - Help with related topics you do know about\n   - Suggest the user contact IT support directly for specialized help\n   - Ask clarifying questions to better understand their issue\n3. Be professional, friendly, and empathetic\n4. Reference the knowledge base article ID when providing solutions\n5. Always verify you understood the issue correctly before providing solutions\n6. Never make up information that isn\x27t in the context\n\nChat History:\n"
  ++ chat_history ++ "\n\nUser Question: " ++ question ++ "\n\nHelpful Answer:"

/-- The LLM behind the chain (`prompt | llm | StrOutputParser()`): a prompt
in, a text out, or a raised exception. -/
def LLM : Type := String → Except String String

/-- The chatbot state the claims are about: `self.similarity_threshold` and
`self.chat_history`. -/
structure BotState where
  similarity_threshold : ℚ
  chat_history : List ChatMsg
deriving DecidableEq, Repr

/-- Model of `self.chain.invoke` (`chatbot.py` lines 227-236):
the parallel block computes `context` by its own call to
`_retrieve_with_threshold(question, k=3)` plus `_format_docs`, formats the
chat history, fills the prompt and runs the LLM.  Any exception raised
inside propagates. -/
def chain_invoke (store : VectorStore) (llm : LLM) (st : BotState)
    (question : String) : Except String String :=
  match retrieve_with_threshold store st.similarity_threshold question 3 with
  | .error e => .error e
  | .ok docs => llm (promptOf (format_docs docs) (format_chat_history st.chat_history) question)

/-- One formatted source entry of `process_message` (lines 269-276);
`content_preview` is `page_content[:200] + "..."`. -/
structure SourceInfo where
  id : String
  title : String
  category : String
  content_preview : String
deriving DecidableEq, Repr

/-- Source formatting of `process_message` (lines 269-276). -/
def toSourceInfo (doc : Document) : SourceInfo :=
  ⟨doc.id.getD "N/A", doc.title.getD "N/A", doc.category.getD "N/A",
    String.mk (doc.page_content.data.take 200) ++ "..."⟩

/-- The history update of `process_message` (lines 257-263): append the
user and assistant turns, then keep only the last 10 messages. -/
def append_exchange (history : List ChatMsg) (user_message response_text : String) :
    List ChatMsg :=
  let h := history ++ [ChatMsg.human user_message, ChatMsg.ai response_text]
  if 10 < h.length then h.drop (h.length - 10) else h

/-- The `"I encountered an error processing your request: ..."` string of
the except branch of `process_message` (line 281). -/
def errorReply (e : String) : String :=
  "I encountered an error processing your request: " ++ e

/-- Model of `process_message` (`chatbot.py` lines 240-282): retrieve sources with
`k=3`, invoke the chain, update and cap the chat history, format the
sources; on any exception return the error reply with no sources and leave
the state untouched.  `function_result` is always `None` (line 266). -/
def process_message (store : VectorStore) (llm : LLM) (st : BotState)
    (user_message : String) :
    (String × List SourceInfo × Option Unit) × BotState :=
  match retrieve_with_threshold store st.similarity_threshold user_message 3 with
  | .error e => ((errorReply e, [], none), st)
  | .ok source_docs =>
    match chain_invoke store llm st user_message with
    | .error e => ((errorReply e, [], none), st)
    | .ok response_text =>
      ((response_text, source_docs.map toSourceInfo, none),
        ⟨st.similarity_threshold, append_exchange st.chat_history user_message response_text⟩)

/-- What `set_similarity_threshold` prints: an acceptance or a rejection of
the requested value (lines 325-329). -/
inductive ThresholdLog where
  | updated (t : ℚ)
  | invalid (t : ℚ)
deriving DecidableEq, Repr

/-- Model of `set_similarity_threshold` (`chatbot.py` lines 318-329): inside
`[0, 1]` the active threshold is replaced, otherwise the state is left
unchanged and the invalid-threshold error is reported. -/
def set_similarity_threshold (threshold : ℚ) (st : BotState) : BotState × ThresholdLog :=
  if 0 ≤ threshold ∧ threshold ≤ 1 then
    (⟨threshold, st.chat_history⟩, .updated threshold)
  else (st, .invalid threshold)

/-- Run a sequence of successful exchanges through the history update of
`process_message`. -/
def run_exchanges : List (String × String) → List ChatMsg → List ChatMsg
  | [], h => h
  | e :: es, h => run_exchanges es (append_exchange h e.1 e.2)

/-- The turns a list of exchanges appends, two per exchange, in order. -/
def turnsOf (exchanges : List (String × String)) : List ChatMsg :=
  (exchanges.map fun e => [ChatMsg.human e.1, ChatMsg.ai e.2]).flatten

/-- The last `n` elements of a list (`l[-n:]` on a list longer than `n`). -/
def lastN (n : Nat) (l : List ChatMsg) : List ChatMsg := l.drop (l.length - n)

end Chatbot

namespace DecimalRepr

/-- Numeric value of a decimal digit character. -/
def digitVal (c : Char) : Nat := c.toNat - 48

/-- Parse a decimal digit string back to a number (left fold). -/
def parseDigits (l : List Char) : Nat := l.foldl (fun a c => 10 * a + digitVal c) 0

end DecimalRepr

namespace Samples

/-- Sample knowledge-base document. -/
def doc1 : Chatbot.Document :=
  ⟨some "KB001", some "Password Reset", some "password", "Open the portal and reset."⟩

/-- Sample knowledge-base document. -/
def doc2 : Chatbot.Document :=
  ⟨some "KB002", some "VPN Setup", some "network", "Install the VPN client."⟩

/-- Sample knowledge-base document. -/
def doc3 : Chatbot.Document :=
  ⟨some "KB003", some "Slow Computer", some "hardware", "Free disk space."⟩

/-- Sample document with no metadata. -/
def doc4 : Chatbot.Document := ⟨none, none, none, "Miscellaneous note."⟩

/-- Sample scored candidates in ascending L2-distance order. -/
def cands : List (Chatbot.Document × ℚ) := [(doc1, 0), (doc2, 1), (doc3, 3), (doc4, 9)]

/-- Sample deterministic vector store over `cands`. -/
def store : Chatbot.VectorStore := fun _ n => .ok (cands.take n)

/-- Sample vector store that always raises. -/
def failingStore : Chatbot.VectorStore := fun _ _ => .error "faiss index unavailable"

/-- Sample LLM that always answers. -/
def llm : Chatbot.LLM := fun _ => .ok "Here is the answer."

/-- Sample LLM that always raises. -/
def failingLLM : Chatbot.LLM := fun _ => .error "rate limited"

/-- Sample chatbot state with the default threshold 0.7. -/
def bot : Chatbot.BotState := ⟨7/10, []⟩

/-- Argument dictionary whose `category` violates the declared enum. -/
def badEnumArgs : FunctionCalling.Args :=
  [("title", "Printer broken"), ("description", "Paper jam in B2"), ("category", "kitchen")]

end Samples

namespace DecimalRepr

theorem digitVal_digitChar (n : Nat) (h : n < 10) : digitVal (Nat.digitChar n) = n := by
  interval_cases n <;> rfl

theorem toDigitsCore_acc (fuel : Nat) :
    ∀ (n : Nat) (acc : List Char),
      Nat.toDigitsCore 10 fuel n acc = Nat.toDigitsCore 10 fuel n [] ++ acc := by
  induction fuel with
  | zero => intro n acc; rfl
  | succ fuel ih =>
    intro n acc
    rw [Nat.toDigitsCore, Nat.toDigitsCore]
    by_cases h : n / 10 = 0
    · simp [h]
    · simp only [h, if_false]
      rw [ih (n / 10) (Nat.digitChar (n % 10) :: acc),
        ih (n / 10) [Nat.digitChar (n % 10)]]
      simp

theorem parseDigits_append (l : List Char) (c : Char) :
    parseDigits (l ++ [c]) = 10 * parseDigits l + digitVal c := by
  simp [parseDigits, List.foldl_append]

theorem parse_toDigitsCore (fuel : Nat) :
    ∀ n : Nat, n < fuel → parseDigits (Nat.toDigitsCore 10 fuel n []) = n := by
  induction fuel with
  | zero => intro n h; omega
  | succ fuel ih =>
    intro n h
    rw [Nat.toDigitsCore]
    by_cases h0 : n / 10 = 0
    · have hn : n < 10 := by omega
      simp only [h0, if_true]
      rw [Nat.mod_eq_of_lt hn] at *
      simp [parseDigits, digitVal_digitChar n hn]
    · simp only [h0, if_false]
      rw [toDigitsCore_acc fuel (n / 10) [Nat.digitChar (n % 10)]]
      rw [parseDigits_append]
      have hd : n / 10 < fuel := by omega
      rw [ih (n / 10) hd, digitVal_digitChar (n % 10) (Nat.mod_lt n (by omega))]
      omega

theorem parse_repr (n : Nat) : parseDigits (Nat.repr n).data = n := by
  have : (Nat.repr n).data = Nat.toDigitsCore 10 (n + 1) n [] := rfl
  rw [this]
  exact parse_toDigitsCore (n + 1) n (Nat.lt_succ_self n)

theorem repr_injective : Function.Injective Nat.repr := by
  intro a b h
  have := congrArg (fun s : String => parseDigits s.data) h
  simpa [parse_repr] using this

theorem append_left_cancel_str (a s t : String) (h : a ++ s = a ++ t) : s = t := by
  apply String.ext
  have h2 := congrArg String.data h
  simp only [String.data_append] at h2
  exact List.append_cancel_left h2

theorem inc_repr_injective : Function.Injective (fun n : Nat => "INC" ++ Nat.repr n) := by
  intro a b h
  exact repr_injective (append_left_cancel_str "INC" (Nat.repr a) (Nat.repr b) h)

end DecimalRepr

namespace Chatbot

theorem length_filter_mono {α : Type} {p q : α → Bool} (l : List α)
    (h : ∀ a, p a = true → q a = true) :
    (l.filter p).length ≤ (l.filter q).length := by
  induction l with
  | nil => simp
  | cons a l ih =>
    rw [List.filter_cons, List.filter_cons]
    by_cases hp : p a = true
    · rw [if_pos hp, if_pos (h a hp)]
      simpa using ih
    · rw [if_neg hp]
      by_cases hq : q a = true
      · rw [if_pos hq]
        refine ih.trans ?_
        simp
      · rw [if_neg hq]
        exact ih

theorem thresholdFilter_sublist (cands : List (Document × ℚ)) (t : ℚ) (k : Nat) :
    (thresholdFilter cands t k).Sublist cands :=
  (List.take_sublist _ _).trans (List.filter_sublist _)

/-- C1: for every query, every `k ≥ 1` and the active threshold `t`,
`_retrieve_with_threshold` fetches `2k` scored candidates from the index,
converts each raw distance `d` to similarity `1/(1+d)`, and returns only
documents whose similarity meets `t`, at most `k` of them; when the index
returns its candidates in ascending-distance order (FAISS does) with
non-negative distances, the kept pairs are in descending similarity order. -/
theorem retrieve_with_threshold_spec (store : VectorStore) (t : ℚ) (q : String)
    (k : Nat) (cands : List (Document × ℚ)) (docs : List Document)
    (_hk : 1 ≤ k)
    (hstore : store q (k * 2) = .ok cands)
    (hret : retrieve_with_threshold store t q k = .ok docs) :
    docs = ((cands.filter fun ds => decide (t ≤ similarityOf ds.2)).take k).map Prod.fst ∧
    docs.length ≤ k ∧
    (∀ d ∈ docs, ∃ s : ℚ, (d, s) ∈ cands ∧ t ≤ similarityOf s) ∧
    (cands.Pairwise (fun a b => a.2 ≤ b.2) → (∀ ds ∈ cands, (0:ℚ) ≤ ds.2) →
      (thresholdFilter cands t k).Pairwise
        (fun a b => similarityOf b.2 ≤ similarityOf a.2)) := by
  rw [retrieve_with_threshold, hstore] at hret
  injection hret with hdocs
  subst hdocs
  refine ⟨rfl, ?_, ?_, ?_⟩
  · rw [List.length_map]
    exact (List.length_take_le _ _)
  · intro d hd
    obtain ⟨⟨d', s⟩, hmem, rfl⟩ := List.mem_map.mp hd
    refine ⟨s, (thresholdFilter_sublist cands t k).subset hmem, ?_⟩
    have := List.of_mem_filter ((List.take_sublist _ _).subset hmem)
    exact of_decide_eq_true this
  · intro hsorted hnn
    have hpair : (thresholdFilter cands t k).Pairwise (fun a b => a.2 ≤ b.2) :=
      List.Pairwise.sublist (thresholdFilter_sublist cands t k) hsorted
    refine hpair.imp_of_mem ?_
    intro a b ha hb hab
    have ha' : (0:ℚ) ≤ a.2 := hnn a ((thresholdFilter_sublist cands t k).subset ha)
    have hpos : (0:ℚ) < 1 + a.2 := by linarith
    have : (1:ℚ) + a.2 ≤ 1 + b.2 := by linarith
    exact one_div_le_one_div_of_le hpos this

/-- Witness for C1 at a concrete store, threshold 1/2 and `k = 1`. -/
theorem retrieve_with_threshold_spec_witness :
    [Samples.doc1] =
      (((Samples.cands.take 2).filter fun ds =>
        decide ((1:ℚ)/2 ≤ similarityOf ds.2)).take 1).map Prod.fst :=
  (retrieve_with_threshold_spec Samples.store (1/2) "how do I reset my password" 1
    (Samples.cands.take 2) [Samples.doc1] (by decide) rfl
    (by norm_num [retrieve_with_threshold, Samples.store, Samples.cands, thresholdFilter,
      similarityOf, List.filter])).1

end Chatbot

namespace Chatbot

/-- C2: with the query, `k` and index state fixed, raising the similarity
threshold never increases the number of documents
`_retrieve_with_threshold` returns. -/
theorem retrieve_count_antitone (store : VectorStore) (q : String) (k : Nat)
    (t1 t2 : ℚ) (h : t1 ≤ t2) :
    resultCount (retrieve_with_threshold store t2 q k) ≤
      resultCount (retrieve_with_threshold store t1 q k) := by
  rw [retrieve_with_threshold, retrieve_with_threshold]
  cases hs : store q (k * 2) with
  | error e => simp [resultCount]
  | ok cands =>
    simp only [resultCount, List.length_map, thresholdFilter, List.length_take]
    have hm := length_filter_mono
      (p := fun ds : Document × ℚ => decide (t2 ≤ similarityOf ds.2))
      (q := fun ds : Document × ℚ => decide (t1 ≤ similarityOf ds.2)) cands ?_
    · omega
    · intro a ha
      simp only [decide_eq_true_eq] at ha ⊢
      exact h.trans ha

/-- Witness for C2 at the sample store, thresholds 1/2 ≤ 9/10 and `k = 2`. -/
theorem retrieve_count_antitone_witness :
    resultCount (retrieve_with_threshold Samples.store (9/10) "vpn" 2) ≤
      resultCount (retrieve_with_threshold Samples.store (1/2) "vpn" 2) :=
  retrieve_count_antitone Samples.store "vpn" 2 (1/2) (9/10) (by norm_num)

/-- C4: `set_similarity_threshold` rejects a value outside `[0, 1]` with
the invalid-threshold error and leaves the state (hence the active
threshold) unchanged; a value inside `[0, 1]` replaces the active
threshold, so subsequent retrievals filter against the new value. -/
theorem set_similarity_threshold_spec (v : ℚ) (st : BotState) :
    (¬ (0 ≤ v ∧ v ≤ 1) →
      set_similarity_threshold v st = (st, .invalid v)) ∧
    ((0 ≤ v ∧ v ≤ 1) →
      (set_similarity_threshold v st).1 = ⟨v, st.chat_history⟩ ∧
      (set_similarity_threshold v st).2 = .updated v ∧
      ∀ (store : VectorStore) (q : String) (k : Nat),
        retrieve_with_threshold store
            (set_similarity_threshold v st).1.similarity_threshold q k =
          retrieve_with_threshold store v q k) := by
  constructor
  · intro h
    rw [set_similarity_threshold, if_neg h]
  · intro h
    rw [set_similarity_threshold, if_pos h]
    exact ⟨rfl, rfl, fun _ _ _ => rfl⟩

/-- Witness for C4: 3/2 is rejected and 7/10 is accepted on a sample
state. -/
theorem set_similarity_threshold_spec_witness :
    set_similarity_threshold (3/2) Samples.bot = (Samples.bot, .invalid (3/2)) ∧
    (set_similarity_threshold (2/5) Samples.bot).1 = ⟨2/5, Samples.bot.chat_history⟩ :=
  ⟨(set_similarity_threshold_spec (3/2) Samples.bot).1 (by norm_num),
   ((set_similarity_threshold_spec (2/5) Samples.bot).2 (by norm_num)).1⟩

end Chatbot

namespace Chatbot

theorem samples_retrieve_eval :
    retrieve_with_threshold Samples.store Samples.bot.similarity_threshold
      "reset password" 3 = .ok [Samples.doc1] := by
  norm_num [retrieve_with_threshold, Samples.store, Samples.bot, Samples.cands,
    thresholdFilter, similarityOf, List.filter]

theorem samples_chain_eval :
    chain_invoke Samples.store Samples.llm Samples.bot "reset password" =
      .ok "Here is the answer." := by
  rw [chain_invoke, samples_retrieve_eval]
  rfl

/-- C6: if the retrieval step or the generation chain raises inside
`process_message`, the call returns the error reply with an empty source
list and no function result, and the chatbot state — in particular the
conversation history — is exactly as before the call. -/
theorem process_message_error_handling (store : VectorStore) (llm : LLM)
    (st : BotState) (msg : String) :
    (∀ e, retrieve_with_threshold store st.similarity_threshold msg 3 = .error e →
      process_message store llm st msg = ((errorReply e, [], none), st)) ∧
    (∀ docs e, retrieve_with_threshold store st.similarity_threshold msg 3 = .ok docs →
      chain_invoke store llm st msg = .error e →
      process_message store llm st msg = ((errorReply e, [], none), st)) := by
  constructor
  · intro e he
    rw [process_message, he]
  · intro docs e hd hc
    rw [process_message, hd, hc]

/-- Witness for C6: a raising store yields the error reply and an unchanged
state. -/
theorem process_message_error_handling_witness :
    process_message Samples.failingStore Samples.llm Samples.bot "help" =
      ((errorReply "faiss index unavailable", [], none), Samples.bot) :=
  (process_message_error_handling Samples.failingStore Samples.llm Samples.bot "help").1
    "faiss index unavailable" rfl

/-- C10: retrieval is a function of the store, threshold, query and `k`, so
the two retrievals `process_message` performs (one for the returned
sources, one inside the chain for the prompt context) agree: with the
retrieval result fixed at `docs`, the chain prompt is built from
`format_docs docs` and the caller receives exactly `docs` as sources. -/
theorem process_message_sources_match_context (store : VectorStore) (llm : LLM)
    (st : BotState) (msg : String) (docs : List Document) (resp : String)
    (hret : retrieve_with_threshold store st.similarity_threshold msg 3 = .ok docs)
    (hllm : llm (promptOf (format_docs docs)
      (format_chat_history st.chat_history) msg) = .ok resp) :
    chain_invoke store llm st msg =
      llm (promptOf (format_docs docs) (format_chat_history st.chat_history) msg) ∧
    process_message store llm st msg =
      ((resp, docs.map toSourceInfo, none),
        ⟨st.similarity_threshold, append_exchange st.chat_history msg resp⟩) := by
  have hchain : chain_invoke store llm st msg =
      llm (promptOf (format_docs docs) (format_chat_history st.chat_history) msg) := by
    rw [chain_invoke, hret]
  refine ⟨hchain, ?_⟩
  rw [process_message, hret, hchain, hllm]

/-- Witness for C10 on the sample store: the sources returned are the
formatted `doc1`, the very document whose text went into the prompt. -/
theorem process_message_sources_match_context_witness :
    process_message Samples.store Samples.llm Samples.bot "reset password" =
      (("Here is the answer.", [Samples.doc1].map toSourceInfo, none),
        ⟨Samples.bot.similarity_threshold,
          append_exchange Samples.bot.chat_history "reset password" "Here is the answer."⟩) :=
  (process_message_sources_match_context Samples.store Samples.llm Samples.bot
    "reset password" [Samples.doc1] "Here is the answer." samples_retrieve_eval rfl).2

end Chatbot

namespace Chatbot

theorem lastN_append_lastN (n : Nat) (x y : List ChatMsg) :
    lastN n (lastN n x ++ y) = lastN n (x ++ y) := by
  simp only [lastN, List.length_append, List.length_drop]
  rw [List.drop_append_eq_append_drop, List.drop_append_eq_append_drop, List.drop_drop]
  simp only [List.length_drop]
  congr 2 <;> omega

theorem append_exchange_eq_lastN (h : List ChatMsg) (u a : String) :
    append_exchange h u a = lastN 10 (h ++ [ChatMsg.human u, ChatMsg.ai a]) := by
  rw [append_exchange, lastN]
  by_cases hl : 10 < (h ++ [ChatMsg.human u, ChatMsg.ai a]).length
  · rw [if_pos hl]
  · rw [if_neg hl]
    have h0 : (h ++ [ChatMsg.human u, ChatMsg.ai a]).length - 10 = 0 := by
      simp only [List.length_append] at hl ⊢
      omega
    rw [h0, List.drop_zero]

theorem run_exchanges_lastN (ex : List (String × String)) :
    ∀ h : List ChatMsg,
      run_exchanges ex (lastN 10 h) = lastN 10 (h ++ turnsOf ex) := by
  induction ex with
  | nil => intro h; simp [run_exchanges, turnsOf, lastN]
  | cons e es ih =>
    intro h
    rw [run_exchanges, append_exchange_eq_lastN, lastN_append_lastN,
      ih (h ++ [ChatMsg.human e.1, ChatMsg.ai e.2])]
    simp [turnsOf, List.append_assoc]

/-- C7: after any sequence of successful `process_message` turns starting
from the empty history, the stored history is exactly the last 10 of all
appended turns — never more than 10 messages, with the oldest evicted
first and the recent turns kept in order — and each successful turn
updates the history exactly by `append_exchange`. -/
theorem chat_history_cap_fifo (ex : List (String × String)) :
    run_exchanges ex [] = lastN 10 (turnsOf ex) ∧
    (run_exchanges ex []).length ≤ 10 ∧
    (∀ (store : VectorStore) (llm : LLM) (st : BotState) (msg resp : String)
        (docs : List Document),
      retrieve_with_threshold store st.similarity_threshold msg 3 = .ok docs →
      chain_invoke store llm st msg = .ok resp →
      (process_message store llm st msg).2.chat_history =
        append_exchange st.chat_history msg resp) := by
  have h1 : run_exchanges ex [] = lastN 10 (turnsOf ex) := by
    have h2 := run_exchanges_lastN ex []
    simpa [lastN] using h2
  refine ⟨h1, ?_, ?_⟩
  · rw [h1, lastN, List.length_drop]
    omega
  · intro store llm st msg resp docs hret hchain
    rw [process_message, hret, hchain]

/-- Witness for C7: a successful sample turn updates the history by
`append_exchange`. -/
theorem chat_history_cap_fifo_witness :
    (process_message Samples.store Samples.llm Samples.bot "reset password").2.chat_history =
      append_exchange Samples.bot.chat_history "reset password" "Here is the answer." :=
  (chat_history_cap_fifo []).2.2 Samples.store Samples.llm Samples.bot
    "reset password" "Here is the answer." [Samples.doc1]
    samples_retrieve_eval samples_chain_eval

/-- C9: the chat-history block placed in the prompt is rendered from
`history[-6:]` only: at most the six most recent turns, a suffix of the
stored history (which may retain up to 10 turns); the older turns sit in
the discarded prefix and are never rendered. -/
theorem format_chat_history_last_six (history : List ChatMsg) :
    (history ≠ [] →
      format_chat_history history =
        String.intercalate "\n" ((history.drop (history.length - 6)).map renderMsg)) ∧
    (history.drop (history.length - 6)).length ≤ 6 ∧
    (history.drop (history.length - 6)) <:+ history ∧
    history = history.take (history.length - 6) ++ history.drop (history.length - 6) := by
  refine ⟨?_, ?_, ?_, ?_⟩
  · intro h
    rw [format_chat_history, if_neg h]
  · rw [List.length_drop]
    omega
  · exact List.drop_suffix _ _
  · exact (List.take_append_drop _ _).symm

/-- Witness for C9 on an eight-message history: only the last six turns
are rendered. -/
theorem format_chat_history_last_six_witness :
    format_chat_history
        [ChatMsg.human "m1", ChatMsg.ai "r1", ChatMsg.human "m2", ChatMsg.ai "r2",
         ChatMsg.human "m3", ChatMsg.ai "r3", ChatMsg.human "m4", ChatMsg.ai "r4"] =
      String.intercalate "\n"
        (([ChatMsg.human "m1", ChatMsg.ai "r1", ChatMsg.human "m2", ChatMsg.ai "r2",
           ChatMsg.human "m3", ChatMsg.ai "r3", ChatMsg.human "m4",
           ChatMsg.ai "r4"].drop
          ([ChatMsg.human "m1", ChatMsg.ai "r1", ChatMsg.human "m2", ChatMsg.ai "r2",
            ChatMsg.human "m3", ChatMsg.ai "r3", ChatMsg.human "m4",
            ChatMsg.ai "r4"].length - 6)).map renderMsg) :=
  (format_chat_history_last_six _).1 (by simp)

end Chatbot

namespace FunctionCalling

theorem run_create_spec (reqs : List CreateReq) :
    ∀ st : TicketState,
      (run_create reqs st).TICKET_COUNTER = st.TICKET_COUNTER + reqs.length ∧
      (run_create reqs st).TICKET_DATABASE.map (fun t => t.ticket_id) =
        st.TICKET_DATABASE.map (fun t => t.ticket_id) ++
          (List.range reqs.length).map
            (fun i => "INC" ++ Nat.repr (st.TICKET_COUNTER + i)) := by
  induction reqs with
  | nil => intro st; simp [run_create]
  | cons r rs ih =>
    intro st
    rw [run_create]
    obtain ⟨hc, hd⟩ :=
      ih (create_support_ticket r.title r.description r.category r.priority r.now st).2
    constructor
    · rw [hc]
      simp [create_support_ticket]
      omega
    · rw [hd]
      simp only [create_support_ticket, List.map_append, List.map_cons, List.map_nil,
        List.length_cons]
      rw [List.range_succ_eq_map]
      simp only [List.map_cons, List.map_map, List.append_assoc, List.singleton_append,
        Nat.add_zero]
      congr 1
      congr 1
      refine List.map_congr_left ?_
      intro i _
      simp only [Function.comp_apply]
      congr 2
      omega

/-- C5: starting from process start (`TICKET_COUNTER = 1000`), any sequence
of `create_support_ticket` calls issues the identifiers
`INC1000, INC1001, ...` in order: the id of the `i`-th ticket is
`"INC" ++ repr (1000 + i)` (so the numeric parts strictly increase by one
from 1000), the identifiers never repeat, and the counter ends at
`1000 + n`. -/
theorem ticket_ids_unique_increasing (reqs : List CreateReq) :
    (run_create reqs initTicketState).TICKET_DATABASE.map (fun t => t.ticket_id) =
      (List.range reqs.length).map (fun i => "INC" ++ Nat.repr (1000 + i)) ∧
    ((run_create reqs initTicketState).TICKET_DATABASE.map (fun t => t.ticket_id)).Nodup ∧
    (run_create reqs initTicketState).TICKET_COUNTER = 1000 + reqs.length := by
  obtain ⟨hc, hd⟩ := run_create_spec reqs initTicketState
  have hids : (run_create reqs initTicketState).TICKET_DATABASE.map (fun t => t.ticket_id) =
      (List.range reqs.length).map (fun i => "INC" ++ Nat.repr (1000 + i)) := by
    simpa [initTicketState] using hd
  refine ⟨hids, ?_, by simpa [initTicketState] using hc⟩
  rw [hids]
  refine List.Nodup.map ?_ (List.nodup_range _)
  intro a b hab
  have h2 := DecimalRepr.inc_repr_injective hab
  omega

/-- C8: the fixed priority→duration table of `get_resolution_time`, used
verbatim by `create_support_ticket` for `estimated_resolution`; a priority
not in the table (after lower-casing) gets the default. -/
theorem resolution_time_table :
    get_resolution_time "critical" = "1-2 hours" ∧
    get_resolution_time "high" = "4-8 hours" ∧
    get_resolution_time "medium" = "1-2 business days" ∧
    get_resolution_time "low" = "3-5 business days" ∧
    (∀ p : String,
      pyLower p ∉ (["low", "medium", "high", "critical"] : List String) →
      get_resolution_time p = "2-3 business days") ∧
    (∀ (title description category priority now : String) (st : TicketState),
      (create_support_ticket title description category priority now st).1.estimated_resolution =
        get_resolution_time priority) := by
  refine ⟨by decide, by decide, by decide, by decide, ?_, ?_⟩
  · intro p h
    simp only [List.mem_cons, List.not_mem_nil, or_false, not_or] at h
    obtain ⟨h1, h2, h3, h4⟩ := h
    rw [get_resolution_time]
    simp only [if_neg h1, if_neg h2, if_neg h3, if_neg h4]
  · intro title description category priority now st
    rfl

/-- Witness for C8: the unrecognized priority "urgent" falls back to the
default duration. -/
theorem resolution_time_table_witness :
    get_resolution_time "urgent" = "2-3 business days" :=
  resolution_time_table.2.2.2.2.1 "urgent" (by decide)

end FunctionCalling

namespace FunctionCalling

/-- Counterexample to C3: the arguments carry `category = "kitchen"`, which
violates the declared enum of `create_support_ticket` (so the schema check
the claim describes fails), yet `execute_function` executes the function and
returns its ticket — it neither raises a `ValidationError` nor refuses to
execute. -/
theorem execute_function_runs_invalid_enum :
    validArguments "create_support_ticket" Samples.badEnumArgs = false ∧
    execute_function "create_support_ticket" Samples.badEnumArgs "2024-01-01 09:00:00"
        initTicketState =
      .ok (.ticket ⟨"INC1000", "Printer broken", "Paper jam in B2", "kitchen", "medium",
          "open", "2024-01-01 09:00:00", "1-2 business days", "IT Support Team"⟩,
        ⟨[⟨"INC1000", "Printer broken", "Paper jam in B2", "kitchen", "medium", "open",
           "2024-01-01 09:00:00", "1-2 business days", "IT Support Team"⟩], 1001⟩) := by
  constructor
  · decide
  · rfl

/-- C3 (amended): `execute_function` performs no schema validation at all.
It never fails with a `ValidationError`; an unregistered function name
produces an error object (a normal return, not an exception); and for
`create_support_ticket`, any argument dictionary binding the three required
keywords (and no unexpected keyword) is executed directly — whether or not
its values respect the declared enums. -/
theorem execute_function_no_validation :
    (∀ (function_name : String) (args : Args) (now : String) (st : TicketState)
        (f : String),
      execute_function function_name args now st ≠ .error (.validationError f)) ∧
    (∀ (function_name : String) (args : Args) (now : String) (st : TicketState),
      function_name ∉ AVAILABLE_FUNCTIONS →
      execute_function function_name args now st =
        .ok (.errorObject ("Function " ++ function_name ++ " not found"), st)) ∧
    (∀ (args : Args) (now : String) (st : TicketState)
        (title description category : String),
      keysOk args ["title", "description", "category", "priority"] = true →
      args.lookup "title" = some title →
      args.lookup "description" = some description →
      args.lookup "category" = some category →
      execute_function "create_support_ticket" args now st =
        .ok (.ticket (create_support_ticket title description category
            ((args.lookup "priority").getD "medium") now st).1,
          (create_support_ticket title description category
            ((args.lookup "priority").getD "medium") now st).2)) := by
  refine ⟨?_, ?_, ?_⟩
  · intro function_name args now st f
    rw [execute_function]
    split_ifs
    all_goals try simp
    all_goals (split <;> simp)
  · intro function_name args now st h
    simp only [AVAILABLE_FUNCTIONS, List.mem_cons, List.not_mem_nil, or_false,
      not_or] at h
    rw [execute_function, if_neg h.1, if_neg h.2.1, if_neg h.2.2.1, if_neg h.2.2.2]
  · intro args now st title description category hkeys ht hd hc
    rw [execute_function, if_pos rfl, hkeys]
    rw [if_neg (by simp)]
    rw [ht, hd, hc]

/-- Witness for the amended C3: an unregistered name returns the error
object, and a call with an out-of-enum priority value still executes. -/
theorem execute_function_no_validation_witness :
    execute_function "restart_server" [] "2024-01-01 09:00:00" initTicketState =
      .ok (.errorObject ("Function " ++ "restart_server" ++ " not found"),
        initTicketState) ∧
    execute_function "create_support_ticket"
        [("title", "T"), ("description", "D"), ("category", "network"),
         ("priority", "ASAP")] "2024-01-01 09:00:00" initTicketState =
      .ok (.ticket (create_support_ticket "T" "D" "network" "ASAP"
          "2024-01-01 09:00:00" initTicketState).1,
        (create_support_ticket "T" "D" "network" "ASAP"
          "2024-01-01 09:00:00" initTicketState).2) :=
  ⟨execute_function_no_validation.2.1 "restart_server" [] "2024-01-01 09:00:00"
      initTicketState (by decide),
   execute_function_no_validation.2.2
      [("title", "T"), ("description", "D"), ("category", "network"), ("priority", "ASAP")]
      "2024-01-01 09:00:00" initTicketState "T" "D" "network"
      (by decide) (by decide) (by decide) (by decide)⟩

end FunctionCalling
